import Mathlib

/-!
Shallow embedding of the Pressure Trend Calculator (`program.py`).

The Python program works on floats; the embedding idealises the arithmetic
over `ℚ` with exact constants, modelling Python's `round(x, 1)`
(round-half-to-even at the retained digit), `int(x)` (truncation toward
zero) and `%` (euclidean remainder, non-negative for a positive modulus)
explicitly. `calculate_pressure_trend` indexes `past_pressures[0..2]`
unconditionally and raises `IndexError` on shorter lists; the embedding
returns `none` there and `some` of the result record otherwise.
-/

namespace PressureTrend

/-- Round a rational to the nearest integer, ties going to the even
integer — the tie policy of Python's `round`. -/
def roundHalfEven (x : ℚ) : ℤ :=
  let f := ⌊x⌋
  let r := x - (f : ℚ)
  if r < 1 / 2 then f
  else if 1 / 2 < r then f + 1
  else if f % 2 = 0 then f else f + 1

/-- Python's `round(x, 1)`: round to one decimal place. -/
def round1 (x : ℚ) : ℚ :=
  ((roundHalfEven (10 * x) : ℤ) : ℚ) / 10

/-- Python's `int(x)`: truncation toward zero. -/
def pyInt (x : ℚ) : ℤ :=
  if x < 0 then ⌈x⌉ else ⌊x⌋

/-- Conversion factor, `program.py` line 36: 1 inHg = 33.8639 mb. -/
def INHG_TO_MB : ℚ := 338639 / 10000

/-- Conversion factor, `program.py` line 37: 1 hPa = 0.02953 inHg. -/
def HPA_TO_INHG : ℚ := 2953 / 100000

/-- Conversion factor, `program.py` line 38: 1 kPa = 0.2953 inHg. -/
def KPA_TO_INHG : ℚ := 2953 / 10000

/-- `determine_trend` (`program.py` lines 7-19).  The Python default for
`threshold` is `0.01`; callers that rely on the default pass `1 / 100`
explicitly here. -/
def determine_trend (pressure1 pressure2 threshold : ℚ) : String :=
  let diff := pressure2 - pressure1
  if diff > threshold then "Rising"
  else if diff < -threshold then "Falling"
  else "Steady"

/-- The dictionary returned by `calculate_pressure_trend`
(`program.py` lines 141-153). -/
structure TrendResult where
  current_pressure_display : ℚ
  current_pressure_mb : ℚ
  station_model_pressure : ℤ
  pressure_change_display : ℚ
  pressure_change_mb : ℚ
  trend_value : ℤ
  overall_trend : String
  tendency_description : String
  tendency_symbol : String
  unit : String
  unit_label : String

/-- Unit normalisation of the current pressure (`program.py` lines 41-52,
the `current_pressure_inhg` assignments). -/
def normalize_current (unit : String) (current_pressure : ℚ) : ℚ :=
  if unit = "hPa" then current_pressure * HPA_TO_INHG
  else if unit = "kPa" then current_pressure * KPA_TO_INHG
  else if unit = "custom" then current_pressure
  else current_pressure

/-- Unit normalisation of the past-pressure list (`program.py` lines 41-52,
the `past_pressures_inhg` assignments). -/
def normalize_past (unit : String) (past_pressures : List ℚ) : List ℚ :=
  if unit = "hPa" then past_pressures.map (· * HPA_TO_INHG)
  else if unit = "kPa" then past_pressures.map (· * KPA_TO_INHG)
  else if unit = "custom" then past_pressures.map (· * HPA_TO_INHG)
  else past_pressures

/-- Per-element form of `normalize_past`: the factor each list element is
multiplied by in the branch taken for `unit`. -/
def normalize_past_value (unit : String) (p : ℚ) : ℚ :=
  if unit = "hPa" then p * HPA_TO_INHG
  else if unit = "kPa" then p * KPA_TO_INHG
  else if unit = "custom" then p * HPA_TO_INHG
  else p

/-- Reduction of the two early segments to the first-period trend
(`program.py` lines 100-113), on inHg-normalised values. -/
def first_period_of (p1h p2h p3h : ℚ) : String :=
  let trend_3h_to_2h := determine_trend p3h p2h (1 / 100)
  let trend_2h_to_1h := determine_trend p2h p1h (1 / 100)
  if trend_3h_to_2h = trend_2h_to_1h then trend_3h_to_2h
  else if trend_3h_to_2h = "Steady" ∧ trend_2h_to_1h ≠ "Steady" then trend_2h_to_1h
  else if trend_2h_to_1h = "Steady" ∧ trend_3h_to_2h ≠ "Steady" then trend_3h_to_2h
  else determine_trend p3h p1h (1 / 100)

/-- The station-model tendency-symbol cascade (`program.py` lines 120-139):
`tendency_symbol` starts as `""` and each branch of the `elif` chain
overwrites it. -/
def tendency_symbol_of (first_period_trend second_period_trend : String) : String :=
  if first_period_trend = "Rising" ∧ second_period_trend = "Falling" then "+/"
  else if first_period_trend = "Falling" ∧ second_period_trend = "Rising" then "-+"
  else if first_period_trend = "Rising" ∧ second_period_trend = "Steady" then "+="
  else if first_period_trend = "Falling" ∧ second_period_trend = "Steady" then "-="
  else if first_period_trend = "Rising" ∧ second_period_trend = "Rising" then "+"
  else if first_period_trend = "Falling" ∧ second_period_trend = "Falling" then "-"
  else if first_period_trend = "Steady" ∧ second_period_trend = "Rising" then "=+"
  else if first_period_trend = "Steady" ∧ second_period_trend = "Falling" then "=-"
  else if first_period_trend = "Steady" ∧ second_period_trend = "Steady" then "="
  else ""

/-- Body of `calculate_pressure_trend` on the three scalar past pressures
(1 hour, 2 hours, 3 hours ago), exactly the computation of
`program.py` lines 41-153 once the list indexing is resolved.
The unused intermediates `pressure_1h_ago_mb`, `pressure_2h_ago_mb`
(lines 56-57) and `pressure_change_first_period` (line 112) are dropped. -/
def calc_core (current_pressure p1h p2h p3h : ℚ) (unit : String) : TrendResult :=
  let current_pressure_inhg := normalize_current unit current_pressure
  let p1h_inhg := normalize_past_value unit p1h
  let p2h_inhg := normalize_past_value unit p2h
  let p3h_inhg := normalize_past_value unit p3h
  let current_pressure_mb := current_pressure_inhg * INHG_TO_MB
  let pressure_3h_ago_mb := p3h_inhg * INHG_TO_MB
  let pressure_change_mb := round1 (current_pressure_mb - pressure_3h_ago_mb)
  let overall_trend :=
    if pressure_change_mb > 0 then "Rising"
    else if pressure_change_mb < 0 then "Falling"
    else "Steady"
  let trend_value := pyInt (|pressure_change_mb| * 10)
  let current_pressure_mb_rounded := round1 current_pressure_mb
  let station_model_pressure := pyInt (current_pressure_mb_rounded * 10) % 1000
  let display_current_pressure :=
    if unit = "hPa" then current_pressure_mb_rounded
    else if unit = "kPa" then current_pressure_mb_rounded / 10
    else if unit = "custom" then current_pressure_inhg
    else current_pressure_inhg
  let display_pressure_change :=
    if unit = "hPa" then pressure_change_mb
    else if unit = "kPa" then pressure_change_mb / 10
    else if unit = "custom" then pressure_change_mb
    else pressure_change_mb / INHG_TO_MB
  let unit_label :=
    if unit = "hPa" then "hPa"
    else if unit = "kPa" then "kPa"
    else if unit = "custom" then "hPa (change), inHg (current)"
    else "inHg"
  let first_period_trend := first_period_of p1h_inhg p2h_inhg p3h_inhg
  let second_period_trend := determine_trend p1h_inhg current_pressure_inhg (1 / 100)
  { current_pressure_display := display_current_pressure
    current_pressure_mb := current_pressure_mb_rounded
    station_model_pressure := station_model_pressure
    pressure_change_display := display_pressure_change
    pressure_change_mb := pressure_change_mb
    trend_value := trend_value
    overall_trend := overall_trend
    tendency_description := first_period_trend ++ " then " ++ second_period_trend
    tendency_symbol := tendency_symbol_of first_period_trend second_period_trend
    unit := unit
    unit_label := unit_label }

/-- `calculate_pressure_trend` (`program.py` lines 21-153): normalises the
whole past list as the source does and indexes entries 0-2; a list shorter
than three elements raises `IndexError` in Python, modelled as `none`. -/
def calculate_pressure_trend (current_pressure : ℚ) (past_pressures : List ℚ)
    (unit : String) : Option TrendResult :=
  if past_pressures.length < 3 then none
  else
    let current_pressure_inhg := normalize_current unit current_pressure
    let past_pressures_inhg := normalize_past unit past_pressures
    let current_pressure_mb := current_pressure_inhg * INHG_TO_MB
    let pressure_3h_ago_mb := past_pressures_inhg.getD 2 0 * INHG_TO_MB
    let pressure_change_mb := round1 (current_pressure_mb - pressure_3h_ago_mb)
    let overall_trend :=
      if pressure_change_mb > 0 then "Rising"
      else if pressure_change_mb < 0 then "Falling"
      else "Steady"
    let trend_value := pyInt (|pressure_change_mb| * 10)
    let current_pressure_mb_rounded := round1 current_pressure_mb
    let station_model_pressure := pyInt (current_pressure_mb_rounded * 10) % 1000
    let display_current_pressure :=
      if unit = "hPa" then current_pressure_mb_rounded
      else if unit = "kPa" then current_pressure_mb_rounded / 10
      else if unit = "custom" then current_pressure_inhg
      else current_pressure_inhg
    let display_pressure_change :=
      if unit = "hPa" then pressure_change_mb
      else if unit = "kPa" then pressure_change_mb / 10
      else if unit = "custom" then pressure_change_mb
      else pressure_change_mb / INHG_TO_MB
    let unit_label :=
      if unit = "hPa" then "hPa"
      else if unit = "kPa" then "kPa"
      else if unit = "custom" then "hPa (change), inHg (current)"
      else "inHg"
    let first_period_trend :=
      first_period_of (past_pressures_inhg.getD 0 0) (past_pressures_inhg.getD 1 0)
        (past_pressures_inhg.getD 2 0)
    let second_period_trend :=
      determine_trend (past_pressures_inhg.getD 0 0) current_pressure_inhg (1 / 100)
    some
      { current_pressure_display := display_current_pressure
        current_pressure_mb := current_pressure_mb_rounded
        station_model_pressure := station_model_pressure
        pressure_change_display := display_pressure_change
        pressure_change_mb := pressure_change_mb
        trend_value := trend_value
        overall_trend := overall_trend
        tendency_description := first_period_trend ++ " then " ++ second_period_trend
        tendency_symbol := tendency_symbol_of first_period_trend second_period_trend
        unit := unit
        unit_label := unit_label }

theorem calc_cons (cur a b d : ℚ) (t : List ℚ) (u : String) :
    calculate_pressure_trend cur (a :: b :: d :: t) u = some (calc_core cur a b d u) := by
  by_cases h1 : u = "hPa"
  · subst h1; rfl
  by_cases h2 : u = "kPa"
  · subst h2; rfl
  by_cases h3 : u = "custom"
  · subst h3; rfl
  simp only [calculate_pressure_trend, calc_core, normalize_past, normalize_current,
    normalize_past_value, h1, h2, h3, if_false, List.length_cons, List.getD]
  norm_num

theorem pyInt_of_nonneg {x : ℚ} (h : 0 ≤ x) : pyInt x = ⌊x⌋ := by
  unfold pyInt
  rw [if_neg (not_lt.2 h)]

theorem pyInt_intCast (z : ℤ) : pyInt (z : ℚ) = z := by
  unfold pyInt
  split_ifs with h
  · exact Int.ceil_intCast z
  · exact Int.floor_intCast z

theorem round1_mul_ten (x : ℚ) : round1 x * 10 = ((roundHalfEven (10 * x) : ℤ) : ℚ) := by
  unfold round1
  rw [div_mul_cancel₀]
  norm_num

theorem determine_trend_eq (p1 p2 t : ℚ) :
    determine_trend p1 p2 t =
      if p2 - p1 > t then "Rising"
      else if p2 - p1 < -t then "Falling"
      else "Steady" := rfl

/-- C1: `determine_trend` as the spec words it fails for a negative
threshold: at `p_before = p_after = 0`, `t = -1` the difference `0` is
below `-t = 1`, so the claim requires `Falling`, but the `diff > threshold`
branch fires first and the code returns `Rising`. -/
theorem determine_trend_neg_threshold_cex :
    determine_trend 0 0 (-1) = "Rising" ∧ (0 : ℚ) - 0 < -(-1 : ℚ) :=
  ⟨by norm_num [determine_trend], by norm_num⟩

/-- C1 (amended to non-negative thresholds): for every `t ≥ 0`,
`determine_trend` returns `Rising` when the difference exceeds `t`,
`Falling` when it is below `-t`, and `Steady` otherwise; it is total by
construction. -/
theorem determine_trend_spec (p1 p2 t : ℚ) (ht : 0 ≤ t) :
    (t < p2 - p1 → determine_trend p1 p2 t = "Rising") ∧
    (p2 - p1 < -t → determine_trend p1 p2 t = "Falling") ∧
    (¬ t < p2 - p1 → ¬ p2 - p1 < -t → determine_trend p1 p2 t = "Steady") := by
  rw [determine_trend_eq]
  refine ⟨fun h => ?_, fun h => ?_, fun h h' => ?_⟩ <;>
    split_ifs with ha hb <;> first | rfl | (exfalso; simp only [gt_iff_lt] at *; linarith)

theorem determine_trend_spec_witness : determine_trend 0 1 (1 / 100) = "Rising" :=
  (determine_trend_spec 0 1 (1 / 100) (by norm_num)).1 (by norm_num)

/-- C2: in every result record, `overall_trend` matches the sign of the
(rounded) `pressure_change_mb` with a zero threshold. -/
theorem overall_trend_matches_change_sign (c p1 p2 p3 : ℚ) (u : String) (r : TrendResult)
    (hr : calculate_pressure_trend c [p1, p2, p3] u = some r) :
    (0 < r.pressure_change_mb → r.overall_trend = "Rising") ∧
    (r.pressure_change_mb < 0 → r.overall_trend = "Falling") ∧
    (r.pressure_change_mb = 0 → r.overall_trend = "Steady") := by
  obtain rfl : r = calc_core c p1 p2 p3 u :=
    Option.some.inj (hr.symm.trans (calc_cons c p1 p2 p3 [] u))
  have e : (calc_core c p1 p2 p3 u).overall_trend =
      if 0 < (calc_core c p1 p2 p3 u).pressure_change_mb then "Rising"
      else if (calc_core c p1 p2 p3 u).pressure_change_mb < 0 then "Falling"
      else "Steady" := rfl
  rw [e]
  refine ⟨fun h => ?_, fun h => ?_, fun h => ?_⟩ <;>
    split_ifs with ha hb <;> first | rfl | (exfalso; linarith)

theorem overall_trend_matches_change_sign_witness :
    (calc_core 1 0 0 0 "inHg").overall_trend = "Rising" :=
  (overall_trend_matches_change_sign 1 0 0 0 "inHg" (calc_core 1 0 0 0 "inHg")
    (calc_cons 1 0 0 0 [] "inHg")).1 (by
      have h1 : ¬ ("inHg" : String) = "hPa" := by decide
      have h2 : ¬ ("inHg" : String) = "kPa" := by decide
      have h3 : ¬ ("inHg" : String) = "custom" := by decide
      norm_num [calc_core, normalize_current, normalize_past_value, INHG_TO_MB,
        round1, roundHalfEven, h1, h2, h3])

/-- C3: in every result record, `trend_value` equals
`⌊|pressure_change_mb| * 10⌋` and is non-negative. -/
theorem trend_value_eq_floor (c p1 p2 p3 : ℚ) (u : String) (r : TrendResult)
    (hr : calculate_pressure_trend c [p1, p2, p3] u = some r) :
    r.trend_value = ⌊|r.pressure_change_mb| * 10⌋ ∧ 0 ≤ r.trend_value := by
  obtain rfl : r = calc_core c p1 p2 p3 u :=
    Option.some.inj (hr.symm.trans (calc_cons c p1 p2 p3 [] u))
  have e : (calc_core c p1 p2 p3 u).trend_value =
      pyInt (|(calc_core c p1 p2 p3 u).pressure_change_mb| * 10) := rfl
  have hnn : (0 : ℚ) ≤ |(calc_core c p1 p2 p3 u).pressure_change_mb| * 10 := by positivity
  rw [e, pyInt_of_nonneg hnn]
  exact ⟨rfl, Int.le_floor.2 (by exact_mod_cast hnn)⟩

theorem trend_value_eq_floor_witness :
    (calc_core 1 0 0 0 "inHg").trend_value =
      ⌊|(calc_core 1 0 0 0 "inHg").pressure_change_mb| * 10⌋ :=
  (trend_value_eq_floor 1 0 0 0 "inHg" (calc_core 1 0 0 0 "inHg")
    (calc_cons 1 0 0 0 [] "inHg")).1

/-- C4: in every result record, `station_model_pressure` equals
`⌊current_pressure_mb * 10⌋ % 1000` (with `current_pressure_mb` the
current pressure in mb rounded to one decimal) and lies in `[0, 999]`. -/
theorem station_model_pressure_spec (c p1 p2 p3 : ℚ) (u : String) (r : TrendResult)
    (hr : calculate_pressure_trend c [p1, p2, p3] u = some r) :
    r.station_model_pressure = ⌊r.current_pressure_mb * 10⌋ % 1000 ∧
    0 ≤ r.station_model_pressure ∧ r.station_model_pressure ≤ 999 := by
  obtain rfl : r = calc_core c p1 p2 p3 u :=
    Option.some.inj (hr.symm.trans (calc_cons c p1 p2 p3 [] u))
  have e1 : (calc_core c p1 p2 p3 u).station_model_pressure =
      pyInt ((calc_core c p1 p2 p3 u).current_pressure_mb * 10) % 1000 := rfl
  have e2 : (calc_core c p1 p2 p3 u).current_pressure_mb =
      round1 (normalize_current u c * INHG_TO_MB) := rfl
  rw [e1, e2, round1_mul_ten, pyInt_intCast, Int.floor_intCast]
  refine ⟨rfl, Int.emod_nonneg _ (by norm_num), ?_⟩
  have := Int.emod_lt_of_pos (roundHalfEven (10 * (normalize_current u c * INHG_TO_MB)))
    (show (0 : ℤ) < 1000 by norm_num)
  omega

theorem station_model_pressure_spec_witness :
    0 ≤ (calc_core 1 0 0 0 "inHg").station_model_pressure ∧
      (calc_core 1 0 0 0 "inHg").station_model_pressure ≤ 999 :=
  (station_model_pressure_spec 1 0 0 0 "inHg" (calc_core 1 0 0 0 "inHg")
    (calc_cons 1 0 0 0 [] "inHg")).2

/-- C5: when the 3h-to-2h and 2h-to-1h segments classify to opposite
non-`Steady` directions, the first-period trend is recomputed by
classifying directly from the 3-hours-ago to the 1-hour-ago value with the
default `0.01` threshold; when the net change over that span is below
`-0.01` the first period is `Falling`. -/
theorem first_period_disagreement (p1h p2h p3h : ℚ)
    (hd : (determine_trend p3h p2h (1 / 100) = "Rising" ∧
            determine_trend p2h p1h (1 / 100) = "Falling") ∨
          (determine_trend p3h p2h (1 / 100) = "Falling" ∧
            determine_trend p2h p1h (1 / 100) = "Rising")) :
    first_period_of p1h p2h p3h = determine_trend p3h p1h (1 / 100) ∧
    (p1h - p3h < -(1 / 100) → first_period_of p1h p2h p3h = "Falling") := by
  have h1 : first_period_of p1h p2h p3h = determine_trend p3h p1h (1 / 100) := by
    rcases hd with ⟨h32, h21⟩ | ⟨h32, h21⟩ <;>
      simp only [first_period_of, h32, h21] <;>
      rw [if_neg (by decide), if_neg (by decide), if_neg (by decide)]
  refine ⟨h1, fun h => h1.trans ?_⟩
  rw [determine_trend_eq, if_neg (by simp only [gt_iff_lt, not_lt]; linarith), if_pos h]

theorem first_period_disagreement_witness :
    first_period_of (-(1 / 50)) (1 / 50) 0 = "Falling" :=
  (first_period_disagreement (-(1 / 50)) (1 / 50) 0
    (Or.inl ⟨by norm_num [determine_trend], by norm_num [determine_trend]⟩)).2 (by norm_num)

theorem determine_trend_mem (a b t : ℚ) :
    determine_trend a b t = "Rising" ∨ determine_trend a b t = "Falling" ∨
      determine_trend a b t = "Steady" := by
  rw [determine_trend_eq]
  split_ifs <;> simp

theorem first_period_of_mem (a b d : ℚ) :
    first_period_of a b d = "Rising" ∨ first_period_of a b d = "Falling" ∨
      first_period_of a b d = "Steady" := by
  simp only [first_period_of]
  split_ifs <;> exact determine_trend_mem _ _ _

theorem tendency_symbol_of_mem (f s : String)
    (hf : f = "Rising" ∨ f = "Falling" ∨ f = "Steady")
    (hs : s = "Rising" ∨ s = "Falling" ∨ s = "Steady") :
    tendency_symbol_of f s ≠ "" ∧
      tendency_symbol_of f s ∈
        (["+/", "-+", "+=", "-=", "+", "-", "=+", "=-", "="] : List String) := by
  rcases hf with rfl | rfl | rfl <;> rcases hs with rfl | rfl | rfl <;>
    exact ⟨by decide, by decide⟩

/-- C6: the tendency-symbol cascade realises exactly the nine-entry table of
§6, and in every result record `tendency_symbol` is one of the nine table
strings, never the initial empty string. -/
theorem tendency_symbol_total (c p1 p2 p3 : ℚ) (u : String) (r : TrendResult)
    (hr : calculate_pressure_trend c [p1, p2, p3] u = some r) :
    tendency_symbol_of "Rising" "Falling" = "+/" ∧
    tendency_symbol_of "Falling" "Rising" = "-+" ∧
    tendency_symbol_of "Rising" "Steady" = "+=" ∧
    tendency_symbol_of "Falling" "Steady" = "-=" ∧
    tendency_symbol_of "Rising" "Rising" = "+" ∧
    tendency_symbol_of "Falling" "Falling" = "-" ∧
    tendency_symbol_of "Steady" "Rising" = "=+" ∧
    tendency_symbol_of "Steady" "Falling" = "=-" ∧
    tendency_symbol_of "Steady" "Steady" = "=" ∧
    r.tendency_symbol ≠ "" ∧
    r.tendency_symbol ∈ (["+/", "-+", "+=", "-=", "+", "-", "=+", "=-", "="] : List String) := by
  obtain rfl : r = calc_core c p1 p2 p3 u :=
    Option.some.inj (hr.symm.trans (calc_cons c p1 p2 p3 [] u))
  have e : (calc_core c p1 p2 p3 u).tendency_symbol =
      tendency_symbol_of
        (first_period_of (normalize_past_value u p1) (normalize_past_value u p2)
          (normalize_past_value u p3))
        (determine_trend (normalize_past_value u p1) (normalize_current u c) (1 / 100)) := rfl
  have hm := tendency_symbol_of_mem _ _
    (first_period_of_mem (normalize_past_value u p1) (normalize_past_value u p2)
      (normalize_past_value u p3))
    (determine_trend_mem (normalize_past_value u p1) (normalize_current u c) (1 / 100))
  exact ⟨by decide, by decide, by decide, by decide, by decide, by decide, by decide,
    by decide, by decide, e ▸ hm.1, e ▸ hm.2⟩

theorem tendency_symbol_total_witness :
    (calc_core 0 0 0 0 "inHg").tendency_symbol ≠ "" :=
  (tendency_symbol_total 0 0 0 0 "inHg" (calc_core 0 0 0 0 "inHg")
    (calc_cons 0 0 0 0 [] "inHg")).2.2.2.2.2.2.2.2.2.1

/-- C7: every unit-selector string other than `"hPa"`, `"kPa"`, `"custom"`
takes the `inHg` branch: values pass through normalisation unchanged, the
displayed change is `pressure_change_mb / INHG_TO_MB`, and the unit label
is `"inHg"` — the string is not rejected. -/
theorem unrecognized_unit_falls_back_to_inhg (u : String)
    (h1 : u ≠ "hPa") (h2 : u ≠ "kPa") (h3 : u ≠ "custom") (c p : ℚ) (l : List ℚ) :
    normalize_current u c = c ∧ normalize_past_value u p = p ∧ normalize_past u l = l ∧
    ∀ p1 p2 p3 : ℚ,
      (calc_core c p1 p2 p3 u).pressure_change_display =
        (calc_core c p1 p2 p3 u).pressure_change_mb / INHG_TO_MB ∧
      (calc_core c p1 p2 p3 u).unit_label = "inHg" := by
  refine ⟨?_, ?_, ?_, fun p1 p2 p3 => ⟨?_, ?_⟩⟩ <;>
    simp only [normalize_current, normalize_past_value, normalize_past, calc_core,
      h1, h2, h3, if_false]

theorem unrecognized_unit_falls_back_to_inhg_witness :
    (calc_core 1 0 0 0 "foo").unit_label = "inHg" :=
  ((unrecognized_unit_falls_back_to_inhg "foo" (by decide) (by decide) (by decide)
    1 0 []).2.2.2 0 0 0).2

/-- C9: every result record carries the caller's `unit` string verbatim,
while `unit_label` is the label of the branch actually taken — `"inHg"`
whenever the unit string is unrecognized. -/
theorem result_unit_fields (c p1 p2 p3 : ℚ) (u : String) (r : TrendResult)
    (hr : calculate_pressure_trend c [p1, p2, p3] u = some r) :
    r.unit = u ∧
    (u = "hPa" → r.unit_label = "hPa") ∧
    (u = "kPa" → r.unit_label = "kPa") ∧
    (u = "custom" → r.unit_label = "hPa (change), inHg (current)") ∧
    (u ≠ "hPa" → u ≠ "kPa" → u ≠ "custom" → r.unit_label = "inHg") := by
  obtain rfl : r = calc_core c p1 p2 p3 u :=
    Option.some.inj (hr.symm.trans (calc_cons c p1 p2 p3 [] u))
  have el : (calc_core c p1 p2 p3 u).unit_label =
      (if u = "hPa" then "hPa"
       else if u = "kPa" then "kPa"
       else if u = "custom" then "hPa (change), inHg (current)"
       else "inHg") := rfl
  refine ⟨rfl, fun h => ?_, fun h => ?_, fun h => ?_, fun h1 h2 h3 => ?_⟩
  · subst h; rfl
  · subst h; rfl
  · subst h; rfl
  · rw [el, if_neg h1, if_neg h2, if_neg h3]

theorem result_unit_fields_witness :
    (calc_core 0 0 0 0 "foo").unit = "foo" ∧ (calc_core 0 0 0 0 "foo").unit_label = "inHg" :=
  ⟨(result_unit_fields 0 0 0 0 "foo" (calc_core 0 0 0 0 "foo")
      (calc_cons 0 0 0 0 [] "foo")).1,
   (result_unit_fields 0 0 0 0 "foo" (calc_core 0 0 0 0 "foo")
      (calc_cons 0 0 0 0 [] "foo")).2.2.2.2 (by decide) (by decide) (by decide)⟩

/-- C10: two calls with the same current pressure and unit whose past lists
agree on their first three elements return identical records, and a list of
length at least three never fails: entries beyond index 2 are dead. -/
theorem past_tail_irrelevant (c : ℚ) (u : String) (l l' : List ℚ)
    (hlen : 3 ≤ l.length) (h3 : l.take 3 = l'.take 3) :
    calculate_pressure_trend c l u = calculate_pressure_trend c l' u ∧
      (calculate_pressure_trend c l u).isSome := by
  rcases l with _ | ⟨a, l⟩
  · simp at hlen
  rcases l with _ | ⟨b, l⟩
  · simp at hlen
  rcases l with _ | ⟨d, t⟩
  · simp at hlen
  rcases l' with _ | ⟨a', l'⟩
  · simp at h3
  rcases l' with _ | ⟨b', l'⟩
  · simp at h3
  rcases l' with _ | ⟨d', t'⟩
  · simp at h3
  obtain ⟨rfl, rfl, rfl⟩ : a = a' ∧ b = b' ∧ d = d' := by simpa using h3
  rw [calc_cons, calc_cons]
  exact ⟨rfl, rfl⟩

theorem past_tail_irrelevant_witness :
    calculate_pressure_trend 1 [2, 3, 4, 5] "hPa" = calculate_pressure_trend 1 [2, 3, 4] "hPa" ∧
      (calculate_pressure_trend 1 [2, 3, 4, 5] "hPa").isSome :=
  past_tail_irrelevant 1 "hPa" [2, 3, 4, 5] [2, 3, 4] (by decide) rfl

theorem roundHalfEven_sub_abs_le (y : ℚ) : |((roundHalfEven y : ℤ) : ℚ) - y| ≤ 1 / 2 := by
  have h0 : (⌊y⌋ : ℚ) ≤ y := Int.floor_le y
  have h1 : y < ⌊y⌋ + 1 := Int.lt_floor_add_one y
  simp only [roundHalfEven]
  split_ifs with ha hb hc <;>
    (rw [abs_le]; constructor <;> (push_cast; simp only [not_lt] at *; linarith))

theorem round1_sub_abs_le (x : ℚ) : |round1 x - x| ≤ 1 / 20 := by
  have h := roundHalfEven_sub_abs_le (10 * x)
  unfold round1
  rw [show ((roundHalfEven (10 * x) : ℤ) : ℚ) / 10 - x =
        (((roundHalfEven (10 * x) : ℤ) : ℚ) - 10 * x) / 10 by ring,
    abs_div, show |(10 : ℚ)| = 10 by norm_num]
  linarith

/-- C8: the round trip as the spec states it fails: a current pressure of
`10^9` hPa converts to `1000000967` mb via the step-1 constants, so the
hPa display value differs from the input by `967` mb, far above the claimed
`0.05` mb tolerance (the conversion factor is `1.000000967`, not `1`). -/
theorem unit_round_trip_cex :
    1 / 20 < |(calc_core 1000000000 0 0 0 "hPa").current_pressure_display - 1000000000| := by
  have e : (calc_core 1000000000 0 0 0 "hPa").current_pressure_display =
      round1 (normalize_current "hPa" 1000000000 * INHG_TO_MB) := rfl
  rw [e]
  norm_num [normalize_current, HPA_TO_INHG, INHG_TO_MB, round1, roundHalfEven]

/-- C8 (amended): the display round trip reproduces the input within the
half-step rounding tolerance plus the conversion drift `|p| * 967 / 10^9`:
at most `0.05 + |p|*967e-9` mb for hPa, `0.005 + |p|*967e-9` kPa for kPa,
and exactly (hence within `0.0005` inHg) for inHg. -/
theorem unit_round_trip (p : ℚ) :
    |(calc_core p 0 0 0 "hPa").current_pressure_display - p| ≤
      1 / 20 + |p| * (967 / 1000000000) ∧
    |(calc_core p 0 0 0 "kPa").current_pressure_display - p| ≤
      1 / 200 + |p| * (967 / 1000000000) ∧
    (calc_core p 0 0 0 "inHg").current_pressure_display = p ∧
    |(calc_core p 0 0 0 "inHg").current_pressure_display - p| ≤ 1 / 2000 := by
  have eh : (calc_core p 0 0 0 "hPa").current_pressure_display =
      round1 (p * HPA_TO_INHG * INHG_TO_MB) := rfl
  have ek : (calc_core p 0 0 0 "kPa").current_pressure_display =
      round1 (p * KPA_TO_INHG * INHG_TO_MB) / 10 := rfl
  have ei : (calc_core p 0 0 0 "inHg").current_pressure_display = p := rfl
  refine ⟨?_, ?_, ei, by rw [ei]; simp⟩
  · rw [eh]
    have hr := round1_sub_abs_le (p * HPA_TO_INHG * INHG_TO_MB)
    have h2 : |p * HPA_TO_INHG * INHG_TO_MB - p| = |p| * (967 / 1000000000) := by
      rw [show p * HPA_TO_INHG * INHG_TO_MB - p = p * (967 / 1000000000) by
        rw [HPA_TO_INHG, INHG_TO_MB]; ring, abs_mul]
      norm_num
    calc |round1 (p * HPA_TO_INHG * INHG_TO_MB) - p| ≤
        |round1 (p * HPA_TO_INHG * INHG_TO_MB) - p * HPA_TO_INHG * INHG_TO_MB| +
          |p * HPA_TO_INHG * INHG_TO_MB - p| := abs_sub_le _ _ _
      _ ≤ 1 / 20 + |p| * (967 / 1000000000) := add_le_add hr (le_of_eq h2)
  · rw [ek]
    have hr := round1_sub_abs_le (p * KPA_TO_INHG * INHG_TO_MB)
    have h2 : |p * KPA_TO_INHG * INHG_TO_MB - 10 * p| = |p| * (967 / 100000000) := by
      rw [show p * KPA_TO_INHG * INHG_TO_MB - 10 * p = p * (967 / 100000000) by
        rw [KPA_TO_INHG, INHG_TO_MB]; ring, abs_mul]
      norm_num
    have h4 : |round1 (p * KPA_TO_INHG * INHG_TO_MB) - 10 * p| ≤
        1 / 20 + |p| * (967 / 100000000) := by
      calc |round1 (p * KPA_TO_INHG * INHG_TO_MB) - 10 * p| ≤
          |round1 (p * KPA_TO_INHG * INHG_TO_MB) - p * KPA_TO_INHG * INHG_TO_MB| +
            |p * KPA_TO_INHG * INHG_TO_MB - 10 * p| := abs_sub_le _ _ _
        _ ≤ 1 / 20 + |p| * (967 / 100000000) := add_le_add hr (le_of_eq h2)
    rw [show round1 (p * KPA_TO_INHG * INHG_TO_MB) / 10 - p =
          (round1 (p * KPA_TO_INHG * INHG_TO_MB) - 10 * p) / 10 by ring,
      abs_div, show |(10 : ℚ)| = 10 by norm_num]
    linarith

end PressureTrend
